import Mathlib

/-!
Verification of the layout-and-viewport subsystem of the py_cui terminal
widget toolkit.  The Lean definitions below are shallow embeddings of the
Python classes: lines of text are lists of characters, Python ints are
modelled as `Int` (or `Nat` where the source value is always a count or an
index), and Python exceptions are modelled as explicit error results.
-/

/-! ## Python string helpers

Translation of `str.splitlines` restricted to the newline character, which is
the only line boundary occurring in the texts handled here: a trailing
newline does not produce a final empty line, and the empty string yields an
empty list. -/

def splitlinesGo : List Char → List Char → List (List Char)
  | [], acc => [acc.reverse]
  | c :: rest, acc =>
    if c = '\n' then
      acc.reverse :: (if rest.isEmpty then [] else splitlinesGo rest [])
    else
      splitlinesGo rest (c :: acc)

def splitlines (s : List Char) : List (List Char) :=
  match s with
  | [] => []
  | _ => splitlinesGo s []

/-! ## Multi-line text model (TextBlockImplementation, scroll_text_block.py)

State of `TextBlockImplementation` (plus the `_footer` field it writes
through `set_footer`).  Screen coordinates and bounds are Python ints,
modelled as `Int`; buffer indices `_cursor_text_pos_x/_y` are used as list
indices and are modelled as `Nat` (every operation below only ever assigns
them non-negative values, mirroring the guards in the source). -/

structure TBState where
  lines : List (List Char)
  cursorTextPosX : Nat
  cursorTextPosY : Nat
  cursorX : Int
  cursorY : Int
  cursorMaxUp : Int
  cursorMaxDown : Int
  cursorMaxLeft : Int
  cursorMaxRight : Int
  viewportXStart : Int
  viewportYStart : Int
  viewportWidth : Int
  viewportHeight : Int
  footer : String
  deriving DecidableEq

/-- `TextBlockImplementation._set_footer`: footer shows 1-based cursor text
position as column:line. -/
def tbSetFooter (st : TBState) : TBState :=
  { st with footer := toString (st.cursorTextPosX + 1) ++ ":" ++ toString (st.cursorTextPosY + 1) }

/-- `TextBlockImplementation.clear`. -/
def tbClear (st : TBState) : TBState :=
  tbSetFooter { st with
    cursorX := st.cursorMaxLeft
    cursorY := st.cursorMaxUp
    cursorTextPosX := 0
    cursorTextPosY := 0
    viewportYStart := 0
    viewportXStart := 0
    lines := [[]] }

/-- `TextBlockImplementation.set_text`: clear, then split the new text into
lines, keeping one empty line when the split is empty. -/
def tbSetText (st : TBState) (text : String) : TBState :=
  let st1 := tbClear st
  let ls := splitlines text.data
  { st1 with lines := if ls.isEmpty then [[]] else ls }

/-- `TextBlockImplementation.get`: concatenates every line followed by a
newline character. -/
def tbGet (st : TBState) : String :=
  String.mk (st.lines.foldl (fun acc l => acc ++ l ++ ['\n']) [])

/-- `TextBlockImplementation.set_text_line`: overwrite the line under the
cursor. -/
def tbSetTextLine (st : TBState) (l : List Char) : TBState :=
  { st with lines := st.lines.set st.cursorTextPosY l }

/-- `TextBlockImplementation._insert_char` (the key code is already converted
to its character as `chr(key_pressed)` is in the source).  The cursor/scroll
update reads the length of the line as it was before the insertion. -/
def tbInsertChar (st : TBState) (c : Char) : TBState :=
  let currentLine := st.lines.getD st.cursorTextPosY []
  let st1 := tbSetTextLine st
    (currentLine.take st.cursorTextPosX ++ c :: currentLine.drop st.cursorTextPosX)
  let st2 :=
    if (currentLine.length : Int) ≤ st1.viewportWidth then
      { st1 with cursorX := st1.cursorX + 1 }
    else if st1.viewportXStart + st1.viewportWidth < (currentLine.length : Int) then
      { st1 with viewportXStart := st1.viewportXStart + 1 }
    else st1
  { st2 with cursorTextPosX := st2.cursorTextPosX + 1 }

/-- `TextBlockImplementation._handle_newline`: split the current line at the
cursor column, insert the tail as a new line, move to column 0 of the next
line, reset the horizontal scroll, and advance the vertical cursor or scroll
by the sticky rule. -/
def tbHandleNewline (st : TBState) : TBState :=
  let currentLine := st.lines.getD st.cursorTextPosY []
  let newLine1 := currentLine.take st.cursorTextPosX
  let newLine2 := currentLine.drop st.cursorTextPosX
  let lines1 := st.lines.set st.cursorTextPosY newLine1
  let lines2 := lines1.take (st.cursorTextPosY + 1) ++ newLine2 :: lines1.drop (st.cursorTextPosY + 1)
  let st1 := { st with
    lines := lines2
    cursorTextPosY := st.cursorTextPosY + 1
    cursorTextPosX := 0
    cursorX := st.cursorMaxLeft
    viewportXStart := 0 }
  if st1.cursorY < st1.cursorMaxDown then
    { st1 with cursorY := st1.cursorY + 1 }
  else if st1.viewportYStart + st1.viewportHeight < (lines2.length : Int) then
    { st1 with viewportYStart := st1.viewportYStart + 1 }
  else st1

/-- `TextBlockImplementation._handle_backspace`: at column 0 of a non-first
line, merge the current line into the previous one; at a positive column,
delete the character to the left. -/
def tbHandleBackspace (st : TBState) : TBState :=
  let currentLine := st.lines.getD st.cursorTextPosY []
  if st.cursorTextPosX = 0 ∧ st.cursorTextPosY ≠ 0 then
    let prevLen := (st.lines.getD (st.cursorTextPosY - 1) []).length
    let mergedPrev := (st.lines.getD (st.cursorTextPosY - 1) []) ++ currentLine
    let lines1 := st.lines.set (st.cursorTextPosY - 1) mergedPrev
    let lines2 := lines1.take st.cursorTextPosY ++ lines1.drop (st.cursorTextPosY + 1)
    let st1 := { st with
      cursorTextPosX := prevLen
      lines := lines2
      cursorTextPosY := st.cursorTextPosY - 1
      cursorX := st.cursorMaxLeft + (prevLen : Int) }
    if st1.cursorY > st1.cursorMaxUp then
      { st1 with cursorY := st1.cursorY - 1 }
    else if st1.viewportYStart > 0 then
      { st1 with viewportYStart := st1.viewportYStart - 1 }
    else st1
  else if 0 < st.cursorTextPosX then
    let st1 := tbSetTextLine st
      (currentLine.take (st.cursorTextPosX - 1) ++ currentLine.drop st.cursorTextPosX)
    let st2 :=
      if (currentLine.length : Int) ≤ st1.viewportWidth then
        { st1 with cursorX := st1.cursorX - 1 }
      else st1
    { st2 with cursorTextPosX := st2.cursorTextPosX - 1 }
  else st

/-- Fresh `ScrollTextBlock` state as produced by `update_height_width` for a
widget with `start_x = 0`, `start_y = 0`, `padx = 0`, `pady = 0`,
absolute height 3 and width 8: the viewport is 5 characters wide
(`cursor_max_left = 2`, `cursor_max_right = 7`), holding one empty line. -/
def tbExample : TBState :=
  { lines := [[]]
    cursorTextPosX := 0
    cursorTextPosY := 0
    cursorX := 2
    cursorY := 1
    cursorMaxUp := 1
    cursorMaxDown := 1
    cursorMaxLeft := 2
    cursorMaxRight := 7
    viewportXStart := 0
    viewportYStart := 0
    viewportWidth := 5
    viewportHeight := 0
    footer := "" }

/-- Insertion of the letter a, used to iterate `tbInsertChar`. -/
def tbInsertA (st : TBState) : TBState := tbInsertChar st 'a'

/-! ## List (menu) viewport model (MenuImplementation, scroll_menu.py)

`_selected_item`, `_top_view` and `_bottom_view` are Python ints and are
modelled as `Int` (the source can drive `_selected_item` below zero). -/

structure MenuState where
  items : List String
  selectedItem : Int
  topView : Int
  bottomView : Int
  footer : String
  deriving DecidableEq

/-- Python list read `l[i]` with negative-index wraparound; `none` models an
IndexError. -/
def pyListGet (l : List String) (i : Int) : Option String :=
  let j : Int := if i < 0 then i + l.length else i
  if 0 ≤ j ∧ j < (l.length : Int) then l.get? j.toNat else none

/-- Python statement `del l[i]` with negative-index wraparound.  An
out-of-range index leaves the list unchanged; that case raises IndexError in
Python and is unreachable from the operations modelled here. -/
def pyListDelete (l : List String) (i : Int) : List String :=
  let j : Int := if i < 0 then i + l.length else i
  if 0 ≤ j ∧ j < (l.length : Int) then l.eraseIdx j.toNat else l

/-- `MenuImplementation._set_footer`: position label `selected+1/length`, or
the empty string when the menu is empty. -/
def menuSetFooter (st : MenuState) : MenuState :=
  if 0 < st.items.length then
    { st with footer := toString (st.selectedItem + 1) ++ "/" ++ toString st.items.length }
  else
    { st with footer := "" }

/-- `MenuImplementation._scroll_up`. -/
def menuScrollUp (st : MenuState) : MenuState :=
  if st.selectedItem > 0 then
    let st1 :=
      if st.selectedItem = st.topView then { st with topView := st.topView - 1 } else st
    { st1 with selectedItem := st1.selectedItem - 1 }
  else st

/-- `MenuImplementation._scroll_down`. -/
def menuScrollDown (st : MenuState) : MenuState :=
  if st.selectedItem < (st.items.length : Int) - 1 then
    let st1 := { st with selectedItem := st.selectedItem + 1 }
    if st1.selectedItem > st1.bottomView then { st1 with topView := st1.topView + 1 } else st1
  else st

/-- `MenuImplementation.add_item`. -/
def menuAddItem (st : MenuState) (item : String) : MenuState :=
  menuSetFooter { st with items := st.items ++ [item] }

/-- `MenuImplementation.remove_selected_item`: no-op on an empty menu;
otherwise delete the selected item and pull the selection index back when it
fell off the end (guarded by `selected_item > 0`). -/
def menuRemoveSelectedItem (st : MenuState) : MenuState :=
  if st.items.length = 0 then st
  else
    let items1 := pyListDelete st.items st.selectedItem
    let sel1 :=
      if st.selectedItem ≥ (items1.length : Int) ∧ st.selectedItem > 0 then
        st.selectedItem - 1
      else st.selectedItem
    menuSetFooter { st with items := items1, selectedItem := sel1 }

/-- `MenuImplementation.remove_item`: no-op when the item is absent;
otherwise delete its first occurrence and decrement the selection index
whenever the removed index was at or below it (without the `> 0` guard that
`remove_selected_item` has). -/
def menuRemoveItem (st : MenuState) (item : String) : MenuState :=
  if st.items.length = 0 ∨ item ∉ st.items then st
  else
    let iIndex := st.items.indexOf item
    let items1 := st.items.eraseIdx iIndex
    let sel1 :=
      if st.selectedItem ≥ (iIndex : Int) then st.selectedItem - 1 else st.selectedItem
    menuSetFooter { st with items := items1, selectedItem := sel1 }

/-- `MenuImplementation.get`: the selected item, or `None` when the menu is
empty. -/
def menuGet (st : MenuState) : Option String :=
  if 0 < st.items.length then pyListGet st.items st.selectedItem else none

/-- Menu state holding items a, b, c with the first item selected, as after
three `add_item` calls on a fresh menu. -/
def menuABC : MenuState :=
  { items := ["a", "b", "c"], selectedItem := 0, topView := 0, bottomView := 0, footer := "1/3" }

/-- Menu state holding items a, b with the first item selected. -/
def menuAB : MenuState :=
  { items := ["a", "b"], selectedItem := 0, topView := 0, bottomView := 0, footer := "1/2" }

/-- Fresh empty menu state. -/
def menuEmpty : MenuState :=
  { items := [], selectedItem := 0, topView := 0, bottomView := 0, footer := "" }

/-! ## Grid geometry engine (Grid, grid.py)

`_update_size` recomputes the derived cell geometry, raising
`PyCUIOutOfBoundsError` (modelled as `Except.error`) when a cell would be
smaller than 3 characters in either direction. -/

structure PyGrid where
  numRows : Nat
  numCols : Nat
  height : Nat
  width : Nat
  rowHeight : Nat
  colWidth : Nat
  offsetX : Nat
  offsetY : Nat
  deriving DecidableEq

/-- `Grid._update_size`: checks the minimum 3x3 cell size (columns first,
as in the source) and recomputes the derived fields from the stored
dimensions. -/
def gridUpdateSize (g : PyGrid) : Except Unit PyGrid :=
  if g.width ≤ 3 * g.numCols then Except.error ()
  else if g.height ≤ 3 * g.numRows then Except.error ()
  else Except.ok { g with
    rowHeight := g.height / g.numRows
    colWidth := g.width / g.numCols
    offsetX := (g.width % (g.width / g.numCols)) / 2
    offsetY := (g.height % (g.height / g.numRows)) / 2 }

/-- `Grid.update_grid_height_width`: stores the new container dimensions and
then calls `_update_size`.  The result pairs the object state after the call
with a flag telling whether `PyCUIOutOfBoundsError` was raised; assignments
made before the raise persist on the object, as in Python. -/
def gridUpdateHeightWidth (g : PyGrid) (height width : Nat) : PyGrid × Bool :=
  let g1 := { g with height := height, width := width }
  match gridUpdateSize g1 with
  | Except.ok g2 => (g2, false)
  | Except.error _ => (g1, true)

/-- A consistent 1x1 grid on a 10x10 container. -/
def gridExample : PyGrid :=
  { numRows := 1, numCols := 1, height := 10, width := 10,
    rowHeight := 10, colWidth := 10, offsetX := 0, offsetY := 0 }

/-! ## Widget placement (GridLayout._refresh_height_width, grid_layout.py)

Absolute widget bounds as assigned to `w._start_x`, `w._start_y`,
`w._stop_x`, `w._stop_y` by the placement loop.  `leftPadding` and
`topPadding` are the hosting `PyCUI` object fields `_left_padding` and
`_top_padding`. -/

structure LayoutGeom where
  numRows : Nat
  numCols : Nat
  height : Nat
  width : Nat
  rowHeight : Nat
  colWidth : Nat
  offsetX : Nat
  offsetY : Nat
  leftPadding : Nat
  topPadding : Nat
  deriving DecidableEq

structure WPlace where
  row : Nat
  col : Nat
  rowSpan : Nat
  colSpan : Nat
  snapBorder : Bool
  deriving DecidableEq

/-- Assignment to `w._start_x`: the centering offset is dropped for a
column-0 widget with `snap_border`. -/
def widgetStartX (g : LayoutGeom) (p : WPlace) : Nat :=
  let thisOffsetX := if p.col = 0 ∧ p.snapBorder then 0 else g.offsetX
  p.col * g.colWidth + g.leftPadding + thisOffsetX

/-- Assignment to `w._start_y`: one extra row is reserved for the title
bar. -/
def widgetStartY (g : LayoutGeom) (p : WPlace) : Nat :=
  let thisOffsetY := if p.row = 0 ∧ p.snapBorder then 0 else g.offsetY
  p.row * g.rowHeight + g.topPadding + 1 + thisOffsetY

/-- Assignment to `w._stop_x`. -/
def widgetStopX (g : LayoutGeom) (p : WPlace) : Nat :=
  if p.col + p.colSpan = g.numCols ∧ p.snapBorder then
    g.width + g.leftPadding - 1
  else
    p.col * g.colWidth + g.offsetX + g.leftPadding + g.colWidth * p.colSpan - 1

/-- Assignment to `w._stop_y`. -/
def widgetStopY (g : LayoutGeom) (p : WPlace) : Nat :=
  if p.row + p.rowSpan = g.numRows ∧ p.snapBorder then
    g.height + g.topPadding
  else
    p.row * g.rowHeight + g.offsetY + g.topPadding + g.rowHeight * p.rowSpan

/-- Geometry of a 1-row, 3-column layout on a 5x11 container with no host
padding: cell width 3, centering offset_x 1. -/
def layoutExample : LayoutGeom :=
  { numRows := 1, numCols := 3, height := 5, width := 11,
    rowHeight := 5, colWidth := 3, offsetX := 1, offsetY := 0,
    leftPadding := 0, topPadding := 0 }

/-- Widget at cell (0,0) of `layoutExample` with spans 1x1 and
`snap_border` set. -/
def placeExample : WPlace :=
  { row := 0, col := 0, rowSpan := 1, colSpan := 1, snapBorder := true }

/-! ## Neighbor search (GridLayout._get_vertical_neighbor, grid_layout.py)

`_widgets` is an insertion-ordered dict of id to (widget, placement);
it is modelled as a list of entries. -/

structure WEntry where
  id : Nat
  row : Nat
  col : Nat
  rowSpan : Nat
  colSpan : Nat
  deriving DecidableEq

/-- `GridLayout._is_row_col_inside`: the occupied-cell predicate of a
placed widget. -/
def isRowColInside (e : WEntry) (r c : Nat) : Bool :=
  decide (e.row ≤ r) && decide (r < e.row + e.rowSpan) &&
  decide (e.col ≤ c) && decide (c < e.col + e.colSpan)

/-- Inner two loops of `_get_vertical_neighbor` for one candidate row:
scan the columns of the hovered widget band, and inside that scan the
widgets in insertion order, returning the first hit. -/
def scanRowForWidget (ws : List WEntry) (r col colSpan : Nat) : Option WEntry :=
  (List.range' col colSpan).findSome? (fun c => ws.find? (fun e => isRowColInside e r c))

/-- `GridLayout._get_vertical_neighbor` for `direction = KEY_DOWN_ARROW`:
scan rows from the band below the hovered widget to the bottom of the
grid. -/
def getVerticalNeighborDown (ws : List WEntry) (row col rowSpan colSpan numRows : Nat) :
    Option WEntry :=
  (List.range' (row + rowSpan) (numRows - (row + rowSpan))).findSome?
    (fun r => scanRowForWidget ws r col colSpan)

/-- Down-arrow branch of `GridLayout._handle_key_presses` in overview mode:
`set_hover` on the neighbor when one exists, otherwise the hovered widget id
is left unchanged. -/
def handleDownSelected (ws : List WEntry) (numRows : Nat) (cur : WEntry) : Nat :=
  match getVerticalNeighborDown ws cur.row cur.col cur.rowSpan cur.colSpan numRows with
  | some e => e.id
  | none => cur.id

/-- Two placed rectangles share at least one grid cell.  (Stated
arithmetically so that it is decidable on concrete widget lists.) -/
def overlapsW (e1 e2 : WEntry) : Prop :=
  e1.row < e2.row + e2.rowSpan ∧ e2.row < e1.row + e1.rowSpan ∧
  e1.col < e2.col + e2.colSpan ∧ e2.col < e1.col + e1.colSpan

/-- The neighbor condition of the specification for moving down from `cur`:
the row range of `e` starts at or after the bottom edge of `cur`, and the
column ranges intersect. -/
def matchesDown (cur e : WEntry) : Prop :=
  cur.row + cur.rowSpan ≤ e.row ∧ cur.col < e.col + e.colSpan ∧ e.col < cur.col + cur.colSpan

/-- Hovered widget for the neighbor-search witness: cell (0,0) of a 2x2
grid. -/
def curEntry : WEntry := { id := 0, row := 0, col := 0, rowSpan := 1, colSpan := 1 }

/-- Widget list for the neighbor-search witness: the hovered widget, a
widget directly below it, and one in the other column. -/
def wsExample : List WEntry :=
  [curEntry,
   { id := 1, row := 1, col := 0, rowSpan := 1, colSpan := 1 },
   { id := 2, row := 0, col := 1, rowSpan := 2, colSpan := 1 }]

instance (e1 e2 : WEntry) : Decidable (overlapsW e1 e2) := by
  unfold overlapsW; infer_instance

instance (cur e : WEntry) : Decidable (matchesDown cur e) := by
  unfold matchesDown; infer_instance

/-- Text-block state holding the two lines abc and d with the cursor in the
middle of the first line (text position column 2, line 0), inside an 8 wide,
4 high widget. -/
def tbSplitExample : TBState :=
  { lines := [['a', 'b', 'c'], ['d']]
    cursorTextPosX := 2
    cursorTextPosY := 0
    cursorX := 4
    cursorY := 1
    cursorMaxUp := 1
    cursorMaxDown := 2
    cursorMaxLeft := 2
    cursorMaxRight := 7
    viewportXStart := 0
    viewportYStart := 0
    viewportWidth := 5
    viewportHeight := 1
    footer := "3:1" }
/-- C8: for valid dimensions the geometry recomputation succeeds with the
stated quotient/remainder formulas, the cells tile within the container, and
each centering offset is smaller than the corresponding cell size. -/
theorem c8_grid_geometry (g : PyGrid) (hr : 1 ≤ g.numRows) (hc : 1 ≤ g.numCols)
    (hh : 3 * g.numRows < g.height) (hw : 3 * g.numCols < g.width) :
    ∃ g2, gridUpdateSize g = Except.ok g2 ∧
      g2.rowHeight = g.height / g.numRows ∧
      g2.colWidth = g.width / g.numCols ∧
      g2.offsetX = (g.width % g2.colWidth) / 2 ∧
      g2.offsetY = (g.height % g2.rowHeight) / 2 ∧
      g2.rowHeight * g.numRows ≤ g.height ∧
      g2.colWidth * g.numCols ≤ g.width ∧
      g2.offsetX < g2.colWidth ∧
      g2.offsetY < g2.rowHeight := by
  have hcw : 0 < g.width / g.numCols := Nat.div_pos (by omega) (by omega)
  have hrh : 0 < g.height / g.numRows := Nat.div_pos (by omega) (by omega)
  refine ⟨{ g with
      rowHeight := g.height / g.numRows
      colWidth := g.width / g.numCols
      offsetX := (g.width % (g.width / g.numCols)) / 2
      offsetY := (g.height % (g.height / g.numRows)) / 2 },
    ?_, rfl, rfl, rfl, rfl, Nat.div_mul_le_self _ _, Nat.div_mul_le_self _ _,
    lt_of_le_of_lt (Nat.div_le_self _ 2) (Nat.mod_lt _ hcw),
    lt_of_le_of_lt (Nat.div_le_self _ 2) (Nat.mod_lt _ hrh)⟩
  unfold gridUpdateSize
  rw [if_neg (by omega), if_neg (by omega)]

/-- Witness for C8 at the concrete 1x1 grid on a 10x10 container. -/
theorem c8_grid_geometry_witness :
    ∃ g2, gridUpdateSize gridExample = Except.ok g2 ∧
      g2.rowHeight = gridExample.height / gridExample.numRows ∧
      g2.colWidth = gridExample.width / gridExample.numCols ∧
      g2.offsetX = (gridExample.width % g2.colWidth) / 2 ∧
      g2.offsetY = (gridExample.height % g2.rowHeight) / 2 ∧
      g2.rowHeight * gridExample.numRows ≤ gridExample.height ∧
      g2.colWidth * gridExample.numCols ≤ gridExample.width ∧
      g2.offsetX < g2.colWidth ∧
      g2.offsetY < g2.rowHeight :=
  c8_grid_geometry gridExample (by decide) (by decide) (by decide) (by decide)

/-- C3 counterexample: resizing the consistent 1x1 grid on a 10x10 container
to a 2x2 container fails the minimum-cell check, yet the grid state after
the failed call differs from the prior state (the stored container height
and width were already overwritten). -/
theorem c3_failed_resize_counterexample :
    (gridUpdateHeightWidth gridExample 2 2).2 = true ∧
    (gridUpdateHeightWidth gridExample 2 2).1 ≠ gridExample := by decide

/-- C3 amended: a failed `update_grid_height_width` raises after leaving the
derived geometry fields (and the grid dimensions) unchanged, but with the
stored container height and width already set to the new values. -/
theorem c3_failed_resize_amended (g : PyGrid) (height width : Nat)
    (h : width ≤ 3 * g.numCols ∨ height ≤ 3 * g.numRows) :
    gridUpdateHeightWidth g height width = ({ g with height := height, width := width }, true) := by
  have herr : gridUpdateSize { g with height := height, width := width } = Except.error () := by
    unfold gridUpdateSize
    dsimp only
    rcases le_or_lt width (3 * g.numCols) with h1 | h1
    · rw [if_pos h1]
    · rw [if_neg (by omega), if_pos (by omega)]
  unfold gridUpdateHeightWidth
  dsimp only
  rw [herr]

/-- Witness for C3 (amended): the concrete failed resize from the
counterexample, with the mutated height/width visible in the result. -/
theorem c3_failed_resize_witness :
    gridUpdateHeightWidth gridExample 2 2 =
      ({ gridExample with height := 2, width := 2 }, true) :=
  c3_failed_resize_amended gridExample 2 2 (by decide)

/-- C4 counterexample: for the widget at column 0 with `snap_border` in a
3-column layout with centering offset 1, whose span does not reach the last
column, the stored stop x-coordinate is not start + span*col_width - 1 (the
stop keeps the centering offset that the start dropped). -/
theorem c4_bounds_counterexample :
    widgetStopX layoutExample placeExample ≠
      widgetStartX layoutExample placeExample +
        placeExample.colSpan * layoutExample.colWidth - 1 := by decide

/-- C4 amended: absolute bounds as computed by the placement loop.  The
start coordinates additionally include the host left/top padding, and in the
non-snapped stop case the stop keeps the centering offset even when the
start dropped it (row/column 0 with `snap_border`). -/
theorem c4_bounds_amended (g : LayoutGeom) (p : WPlace)
    (hcw : 1 ≤ g.colWidth) (hcs : 1 ≤ p.colSpan) (hw : 1 ≤ g.width) :
    widgetStartX g p =
      g.leftPadding + p.col * g.colWidth + (if p.col = 0 ∧ p.snapBorder then 0 else g.offsetX) ∧
    widgetStartY g p =
      g.topPadding + 1 + p.row * g.rowHeight + (if p.row = 0 ∧ p.snapBorder then 0 else g.offsetY) ∧
    (p.col + p.colSpan = g.numCols ∧ p.snapBorder →
      widgetStopX g p + 1 = g.leftPadding + g.width) ∧
    (¬(p.col + p.colSpan = g.numCols ∧ p.snapBorder) →
      widgetStopX g p + 1 = widgetStartX g p + p.colSpan * g.colWidth +
        (if p.col = 0 ∧ p.snapBorder then g.offsetX else 0)) ∧
    (p.row + p.rowSpan = g.numRows ∧ p.snapBorder →
      widgetStopY g p = g.topPadding + g.height) ∧
    (¬(p.row + p.rowSpan = g.numRows ∧ p.snapBorder) →
      widgetStopY g p + 1 = widgetStartY g p + p.rowSpan * g.rowHeight +
        (if p.row = 0 ∧ p.snapBorder then g.offsetY else 0)) := by
  have hm : 1 * 1 ≤ g.colWidth * p.colSpan := Nat.mul_le_mul hcw hcs
  have hmc : g.colWidth * p.colSpan = p.colSpan * g.colWidth := Nat.mul_comm _ _
  have hmr : g.rowHeight * p.rowSpan = p.rowSpan * g.rowHeight := Nat.mul_comm _ _
  refine ⟨?_, ?_, ?_, ?_, ?_, ?_⟩
  · unfold widgetStartX; dsimp only; split_ifs <;> omega
  · unfold widgetStartY; dsimp only; split_ifs <;> omega
  · intro hcond; unfold widgetStopX; rw [if_pos hcond]; omega
  · intro hcond; unfold widgetStopX widgetStartX; dsimp only
    rw [if_neg hcond]; split_ifs <;> omega
  · intro hcond; unfold widgetStopY; rw [if_pos hcond]; omega
  · intro hcond; unfold widgetStopY widgetStartY; dsimp only
    rw [if_neg hcond]; split_ifs <;> omega

/-- Witness for C4 (amended) at the concrete layout and widget of the
counterexample. -/
theorem c4_bounds_witness :
    widgetStartX layoutExample placeExample =
      layoutExample.leftPadding + placeExample.col * layoutExample.colWidth +
        (if placeExample.col = 0 ∧ placeExample.snapBorder then 0 else layoutExample.offsetX) ∧
    widgetStartY layoutExample placeExample =
      layoutExample.topPadding + 1 + placeExample.row * layoutExample.rowHeight +
        (if placeExample.row = 0 ∧ placeExample.snapBorder then 0 else layoutExample.offsetY) ∧
    (placeExample.col + placeExample.colSpan = layoutExample.numCols ∧ placeExample.snapBorder →
      widgetStopX layoutExample placeExample + 1 =
        layoutExample.leftPadding + layoutExample.width) ∧
    (¬(placeExample.col + placeExample.colSpan = layoutExample.numCols ∧ placeExample.snapBorder) →
      widgetStopX layoutExample placeExample + 1 =
        widgetStartX layoutExample placeExample +
          placeExample.colSpan * layoutExample.colWidth +
          (if placeExample.col = 0 ∧ placeExample.snapBorder then layoutExample.offsetX else 0)) ∧
    (placeExample.row + placeExample.rowSpan = layoutExample.numRows ∧ placeExample.snapBorder →
      widgetStopY layoutExample placeExample = layoutExample.topPadding + layoutExample.height) ∧
    (¬(placeExample.row + placeExample.rowSpan = layoutExample.numRows ∧ placeExample.snapBorder) →
      widgetStopY layoutExample placeExample + 1 =
        widgetStartY layoutExample placeExample +
          placeExample.rowSpan * layoutExample.rowHeight +
          (if placeExample.row = 0 ∧ placeExample.snapBorder then layoutExample.offsetY else 0)) :=
  c4_bounds_amended layoutExample placeExample (by decide) (by decide) (by decide)

/-- C2 counterexample: setting the text ab-newline-cd and reading it back
does not return the same string (a trailing newline is appended). -/
theorem c2_roundtrip_counterexample :
    tbGet (tbSetText tbExample "ab\ncd") ≠ "ab\ncd" := by decide

/-- C2 amended: from any prior state, `set_text` with ab-newline-cd followed
by `get` returns the text with a newline appended after every line,
i.e. ab-newline-cd-newline. -/
theorem c2_roundtrip_amended (st : TBState) :
    tbGet (tbSetText st "ab\ncd") = "ab\ncd\n" := rfl

/-- C9: the list-model scenario: from items a, b, c with selection 0, two
scroll-downs select index 2; removing the selected item three times yields
items a, b with selection 1, then item a with selection 0, then the empty
item list with an empty footer label. -/
theorem c9_menu_scenario :
    (menuScrollDown (menuScrollDown menuABC)).selectedItem = 2 ∧
    (menuRemoveSelectedItem (menuScrollDown (menuScrollDown menuABC))).items = ["a", "b"] ∧
    (menuRemoveSelectedItem (menuScrollDown (menuScrollDown menuABC))).selectedItem = 1 ∧
    (menuRemoveSelectedItem (menuRemoveSelectedItem
      (menuScrollDown (menuScrollDown menuABC)))).items = ["a"] ∧
    (menuRemoveSelectedItem (menuRemoveSelectedItem
      (menuScrollDown (menuScrollDown menuABC)))).selectedItem = 0 ∧
    (menuRemoveSelectedItem (menuRemoveSelectedItem (menuRemoveSelectedItem
      (menuScrollDown (menuScrollDown menuABC))))).items = [] ∧
    (menuRemoveSelectedItem (menuRemoveSelectedItem (menuRemoveSelectedItem
      (menuScrollDown (menuScrollDown menuABC))))).footer = "" := by decide

/-- C10: on an empty menu, `get` returns `None` and `remove_selected_item`
returns with the whole state unchanged. -/
theorem c10_empty_menu (st : MenuState) (h : st.items = []) :
    menuGet st = none ∧ menuRemoveSelectedItem st = st := by
  constructor
  · simp [menuGet, h]
  · simp [menuRemoveSelectedItem, h]

/-- Witness for C10 at the fresh empty menu. -/
theorem c10_empty_menu_witness :
    menuGet menuEmpty = none ∧ menuRemoveSelectedItem menuEmpty = menuEmpty :=
  c10_empty_menu menuEmpty rfl

/-- C6: evaluation at the failing input: removing item a from a menu
holding a, b with the first item selected drives the selection index to -1,
violating the selection-index invariant while the list is still
non-empty. -/
theorem c6_remove_item_negative_selection :
    (menuRemoveItem menuAB "a").items = ["b"] ∧
    (menuRemoveItem menuAB "a").selectedItem = -1 ∧
    (menuRemoveItem menuAB "a").selectedItem < 0 := by decide

/-- C1: evaluation at the failing input: on a fresh multi-line text block
with viewport width 5 (right bound 7), six character insertions leave the
line at 6 characters and the screen cursor at column 8, one past the stored
right bound; the seventh insertion scrolls the viewport while the cursor
stays one past the bound. -/
theorem c1_insert_overruns_right_bound :
    ((tbInsertA^[6] tbExample).lines = [['a', 'a', 'a', 'a', 'a', 'a']] ∧
     (tbInsertA^[6] tbExample).cursorX = 8 ∧
     (tbInsertA^[6] tbExample).cursorMaxRight = 7 ∧
     (tbInsertA^[6] tbExample).cursorMaxRight < (tbInsertA^[6] tbExample).cursorX) ∧
    (tbInsertA^[7] tbExample).cursorX = 8 ∧
    (tbInsertA^[7] tbExample).viewportXStart = 1 := by decide

theorem getD_at_len {α : Type _} (A : List α) (l : α) (B : List α) (d : α) :
    (A ++ l :: B).getD A.length d = l := by
  rw [List.getD_append_right _ _ _ _ (le_refl _), Nat.sub_self]
  rfl

theorem set_at_len {α : Type _} (A : List α) (l : α) (B : List α) (x : α) :
    (A ++ l :: B).set A.length x = A ++ x :: B := by
  rw [List.set_append_right _ _ (le_refl _), Nat.sub_self]
  rfl

theorem take_at_len_succ {α : Type _} (A : List α) (l : α) (B : List α) :
    (A ++ l :: B).take (A.length + 1) = A ++ [l] := by
  have h : A ++ l :: B = (A ++ [l]) ++ B := by simp
  have hlen : A.length + 1 = (A ++ [l]).length := by simp
  rw [h, hlen, List.take_left]

theorem drop_at_len_succ {α : Type _} (A : List α) (l : α) (B : List α) :
    (A ++ l :: B).drop (A.length + 1) = B := by
  have h : A ++ l :: B = (A ++ [l]) ++ B := by simp
  have hlen : A.length + 1 = (A ++ [l]).length := by simp
  rw [h, hlen, List.drop_left]

/-- Projections of `tbHandleNewline` that do not depend on the final
vertical cursor/scroll branch. -/
theorem tbHandleNewline_proj (st : TBState) :
    (tbHandleNewline st).lines =
      ((st.lines.set st.cursorTextPosY
          ((st.lines.getD st.cursorTextPosY []).take st.cursorTextPosX)).take (st.cursorTextPosY + 1) ++
        (st.lines.getD st.cursorTextPosY []).drop st.cursorTextPosX ::
        (st.lines.set st.cursorTextPosY
          ((st.lines.getD st.cursorTextPosY []).take st.cursorTextPosX)).drop (st.cursorTextPosY + 1)) ∧
    (tbHandleNewline st).cursorTextPosY = st.cursorTextPosY + 1 ∧
    (tbHandleNewline st).cursorTextPosX = 0 := by
  unfold tbHandleNewline
  dsimp only
  split_ifs <;> exact ⟨rfl, rfl, rfl⟩

/-- Projections of the merge branch of `tbHandleBackspace` (cursor at column
0 of a non-first line). -/
theorem tbHandleBackspace_merge_proj (st : TBState)
    (h0 : st.cursorTextPosX = 0) (h1 : st.cursorTextPosY ≠ 0) :
    (tbHandleBackspace st).lines =
      ((st.lines.set (st.cursorTextPosY - 1)
          ((st.lines.getD (st.cursorTextPosY - 1) []) ++ st.lines.getD st.cursorTextPosY [])).take st.cursorTextPosY ++
        (st.lines.set (st.cursorTextPosY - 1)
          ((st.lines.getD (st.cursorTextPosY - 1) []) ++ st.lines.getD st.cursorTextPosY [])).drop (st.cursorTextPosY + 1)) ∧
    (tbHandleBackspace st).cursorTextPosY = st.cursorTextPosY - 1 ∧
    (tbHandleBackspace st).cursorTextPosX = (st.lines.getD (st.cursorTextPosY - 1) []).length := by
  unfold tbHandleBackspace
  dsimp only
  rw [if_pos ⟨h0, h1⟩]
  split_ifs <;> exact ⟨rfl, rfl, rfl⟩

theorem getD_at_len_succ {α : Type _} (A : List α) (l l2 : α) (B : List α) (d : α) :
    (A ++ l :: l2 :: B).getD (A.length + 1) d = l2 := by
  have h : A ++ l :: l2 :: B = (A ++ [l]) ++ l2 :: B := by simp
  have hlen : A.length + 1 = (A ++ [l]).length := by simp
  rw [h, hlen, getD_at_len]

theorem drop_at_len_succ2 {α : Type _} (A : List α) (l l2 : α) (B : List α) :
    (A ++ l :: l2 :: B).drop (A.length + 1 + 1) = B := by
  have h : A ++ l :: l2 :: B = (A ++ [l]) ++ l2 :: B := by simp
  have hlen : A.length + 1 + 1 = (A ++ [l]).length + 1 := by simp
  rw [h, hlen, drop_at_len_succ]

/-- C7: from any buffer state with an in-bounds cursor text position,
`_handle_newline` followed by `_handle_backspace` restores the buffer
content and the cursor text position. -/
theorem c7_newline_backspace_inverse (st : TBState)
    (hy : st.cursorTextPosY < st.lines.length)
    (hx : st.cursorTextPosX ≤ (st.lines.getD st.cursorTextPosY []).length) :
    (tbHandleBackspace (tbHandleNewline st)).lines = st.lines ∧
    (tbHandleBackspace (tbHandleNewline st)).cursorTextPosX = st.cursorTextPosX ∧
    (tbHandleBackspace (tbHandleNewline st)).cursorTextPosY = st.cursorTextPosY := by
  obtain ⟨hnl, hny, hnx⟩ := tbHandleNewline_proj st
  have hgy : st.lines.getD st.cursorTextPosY [] = st.lines[st.cursorTextPosY] :=
    List.getD_eq_getElem _ _ hy
  have hdecomp : st.lines = st.lines.take st.cursorTextPosY ++
      (st.lines.getD st.cursorTextPosY []) :: st.lines.drop (st.cursorTextPosY + 1) := by
    conv_lhs => rw [← List.take_append_drop st.cursorTextPosY st.lines]
    rw [List.drop_eq_getElem_cons hy, hgy]
  set y := st.cursorTextPosY with hydef
  set x := st.cursorTextPosX with hxdef
  set L := st.lines.getD y [] with hLdef
  set A := st.lines.take y with hAdef
  set B := st.lines.drop (y + 1) with hBdef
  have hlenA : A.length = y := by
    rw [hAdef, List.length_take]; omega
  have hn2 : (tbHandleNewline st).lines = A ++ L.take x :: L.drop x :: B := by
    rw [hnl, hdecomp, ← hlenA, set_at_len, take_at_len_succ, drop_at_len_succ]
    simp
  obtain ⟨hbl, hby, hbx⟩ := tbHandleBackspace_merge_proj (tbHandleNewline st)
    hnx (by rw [hny]; exact Nat.succ_ne_zero y)
  rw [hn2, hny, Nat.add_sub_cancel] at hbl
  rw [hny, Nat.add_sub_cancel] at hby
  rw [hn2, hny, Nat.add_sub_cancel] at hbx
  rw [← hlenA] at hbl hbx
  rw [getD_at_len, getD_at_len_succ, List.take_append_drop, set_at_len,
    take_at_len_succ, drop_at_len_succ2] at hbl
  rw [getD_at_len] at hbx
  refine ⟨?_, ?_, ?_⟩
  · rw [hbl, hdecomp]
    simp
  · rw [hbx, List.length_take]
    omega
  · exact hby

theorem findSome?_range'_first {β : Type _} (f : Nat → Option β) (s n : Nat) (b : β)
    (h : (List.range' s n).findSome? f = some b) :
    ∃ r, s ≤ r ∧ r < s + n ∧ f r = some b ∧ ∀ r2, s ≤ r2 → r2 < r → f r2 = none := by
  induction n generalizing s with
  | zero => simp at h
  | succ n ih =>
    rw [List.range'_succ, List.findSome?_cons] at h
    cases hfs : f s with
    | some b2 =>
      rw [hfs] at h
      refine ⟨s, le_refl s, by omega, by rw [hfs]; exact h, ?_⟩
      intro r2 h1 h2
      omega
    | none =>
      rw [hfs] at h
      obtain ⟨r, h1, h2, h3, h4⟩ := ih (s + 1) h
      refine ⟨r, by omega, by omega, h3, ?_⟩
      intro r2 hl hr
      rcases Nat.eq_or_lt_of_le hl with heq | hlt
      · rw [← heq]; exact hfs
      · exact h4 r2 hlt hr

theorem findSome?_range'_some {β : Type _} (f : Nat → Option β) (s n : Nat) (b : β)
    (h : (List.range' s n).findSome? f = some b) :
    ∃ r, s ≤ r ∧ r < s + n ∧ f r = some b := by
  obtain ⟨r, h1, h2, h3, _⟩ := findSome?_range'_first f s n b h
  exact ⟨r, h1, h2, h3⟩

theorem findSome?_range'_of_mem {β : Type _} (f : Nat → Option β) (s n r : Nat)
    (hs : s ≤ r) (hr : r < s + n) (hf : (f r).isSome) :
    ((List.range' s n).findSome? f).isSome := by
  by_contra hcontra
  rw [Option.not_isSome_iff_eq_none, List.findSome?_eq_none_iff] at hcontra
  rw [hcontra r (List.mem_range'_1.mpr ⟨hs, hr⟩)] at hf
  simp at hf

theorem isRowColInside_iff (e : WEntry) (r c : Nat) :
    isRowColInside e r c = true ↔
      e.row ≤ r ∧ r < e.row + e.rowSpan ∧ e.col ≤ c ∧ c < e.col + e.colSpan := by
  simp [isRowColInside, Bool.and_eq_true, decide_eq_true_iff, and_assoc]

theorem scanRow_some (ws : List WEntry) (r col cs : Nat) (e : WEntry)
    (h : scanRowForWidget ws r col cs = some e) :
    e ∈ ws ∧ ∃ c, col ≤ c ∧ c < col + cs ∧ isRowColInside e r c = true := by
  unfold scanRowForWidget at h
  obtain ⟨c, hc1, hc2, hfind⟩ := findSome?_range'_some _ _ _ _ h
  refine ⟨List.mem_of_find?_eq_some hfind, c, hc1, hc2, ?_⟩
  have hp := List.find?_some hfind
  simpa using hp

theorem scanRow_isSome (ws : List WEntry) (r col cs c : Nat) (e : WEntry)
    (he : e ∈ ws) (hc1 : col ≤ c) (hc2 : c < col + cs)
    (hin : isRowColInside e r c = true) :
    (scanRowForWidget ws r col cs).isSome := by
  unfold scanRowForWidget
  apply findSome?_range'_of_mem _ _ _ c hc1 hc2
  rw [List.find?_isSome]
  exact ⟨e, he, hin⟩

/-- C5: in overview mode with pairwise non-overlapping widgets placed inside
the grid, moving down from the hovered widget returns a widget whose row
range starts at or after the hovered bottom edge and whose column range
intersects the hovered column range, and among all such widgets one whose
row start is nearest; when no widget matches, the hover does not move. -/
theorem c5_neighbor_down (ws : List WEntry) (numRows : Nat) (cur : WEntry)
    (hcur : cur ∈ ws)
    (hdisj : ∀ e1 ∈ ws, ∀ e2 ∈ ws, e1 ≠ e2 → ¬ overlapsW e1 e2)
    (hgrid : ∀ e ∈ ws, e.row + e.rowSpan ≤ numRows ∧ 1 ≤ e.rowSpan ∧ 1 ≤ e.colSpan) :
    (∀ e, getVerticalNeighborDown ws cur.row cur.col cur.rowSpan cur.colSpan numRows = some e →
      e ∈ ws ∧ matchesDown cur e ∧ ∀ e2 ∈ ws, matchesDown cur e2 → e.row ≤ e2.row) ∧
    (getVerticalNeighborDown ws cur.row cur.col cur.rowSpan cur.colSpan numRows = none →
      (∀ e ∈ ws, ¬ matchesDown cur e) ∧ handleDownSelected ws numRows cur = cur.id) := by
  obtain ⟨hcurGrid, hcurRS, hcurCS⟩ := hgrid cur hcur
  have hmatch_scan : ∀ e2 ∈ ws, matchesDown cur e2 →
      (scanRowForWidget ws e2.row cur.col cur.colSpan).isSome := by
    intro e2 he2 hm
    obtain ⟨hg1, hg2, hg3⟩ := hgrid e2 he2
    unfold matchesDown at hm
    obtain ⟨hm1, hm2, hm3⟩ := hm
    refine scanRow_isSome ws e2.row cur.col cur.colSpan (max cur.col e2.col) e2 he2
      (le_max_left _ _) (max_lt (by omega) (by omega)) ?_
    rw [isRowColInside_iff]
    exact ⟨le_refl _, by omega, le_max_right _ _, max_lt (by omega) (by omega)⟩
  constructor
  · intro e h
    unfold getVerticalNeighborDown at h
    obtain ⟨r, hr1, hr2, hscan, hfirst⟩ := findSome?_range'_first _ _ _ _ h
    obtain ⟨hew, c, hc1, hc2, hin⟩ := scanRow_some _ _ _ _ _ hscan
    rw [isRowColInside_iff] at hin
    obtain ⟨hi1, hi2, hi3, hi4⟩ := hin
    obtain ⟨hg1, hg2, hg3⟩ := hgrid e hew
    have hbe : cur.row + cur.rowSpan ≤ e.row := by
      by_contra hlt
      push_neg at hlt
      have hne : e ≠ cur := by
        intro heq
        rw [heq] at hi2
        omega
      exact hdisj e hew cur hcur hne (by unfold overlapsW; omega)
    have herow : e.row = r := by
      by_contra hne
      have hlt : e.row < r := by omega
      have hsome := scanRow_isSome ws e.row cur.col cur.colSpan c e hew hc1 hc2
        (by rw [isRowColInside_iff]; exact ⟨le_refl _, by omega, hi3, hi4⟩)
      rw [hfirst e.row (by omega) hlt] at hsome
      simp at hsome
    refine ⟨hew, by unfold matchesDown; omega, ?_⟩
    intro e2 he2 hm2
    by_contra hlt2
    push_neg at hlt2
    have hsome := hmatch_scan e2 he2 hm2
    unfold matchesDown at hm2
    rw [hfirst e2.row (by omega) (by omega)] at hsome
    simp at hsome
  · intro h
    constructor
    · intro e2 he2 hm
      have hsome := hmatch_scan e2 he2 hm
      unfold matchesDown at hm
      unfold getVerticalNeighborDown at h
      rw [List.findSome?_eq_none_iff] at h
      obtain ⟨hg1, hg2, hg3⟩ := hgrid e2 he2
      have hmem : e2.row ∈ List.range' (cur.row + cur.rowSpan)
          (numRows - (cur.row + cur.rowSpan)) := by
        rw [List.mem_range'_1]
        exact ⟨hm.1, by omega⟩
      rw [h _ hmem] at hsome
      simp at hsome
    · unfold handleDownSelected
      rw [h]

/-- Witness for C5 on the concrete 2x2 grid: hovered widget at (0,0), one
widget directly below, one spanning both rows of the second column. -/
theorem c5_neighbor_down_witness :
    (∀ e, getVerticalNeighborDown wsExample curEntry.row curEntry.col curEntry.rowSpan
        curEntry.colSpan 2 = some e →
      e ∈ wsExample ∧ matchesDown curEntry e ∧
        ∀ e2 ∈ wsExample, matchesDown curEntry e2 → e.row ≤ e2.row) ∧
    (getVerticalNeighborDown wsExample curEntry.row curEntry.col curEntry.rowSpan
        curEntry.colSpan 2 = none →
      (∀ e ∈ wsExample, ¬ matchesDown curEntry e) ∧
        handleDownSelected wsExample 2 curEntry = curEntry.id) :=
  c5_neighbor_down wsExample 2 curEntry (by decide) (by decide) (by decide)

/-- Witness for C7 at the concrete buffer with lines abc and d and the cursor
at column 2 of line 0. -/
theorem c7_newline_backspace_witness :
    tbSplitExample.cursorTextPosY < tbSplitExample.lines.length ∧
    tbSplitExample.cursorTextPosX ≤
      (tbSplitExample.lines.getD tbSplitExample.cursorTextPosY []).length ∧
    ((tbHandleBackspace (tbHandleNewline tbSplitExample)).lines = tbSplitExample.lines ∧
     (tbHandleBackspace (tbHandleNewline tbSplitExample)).cursorTextPosX =
       tbSplitExample.cursorTextPosX ∧
     (tbHandleBackspace (tbHandleNewline tbSplitExample)).cursorTextPosY =
       tbSplitExample.cursorTextPosY) :=
  ⟨by decide, by decide,
    c7_newline_backspace_inverse tbSplitExample (by decide) (by decide)⟩
